import Mathlib

/-!
Shallow embedding of `src/pyfess/models/models.py` (class `flywheel`).

Matrices are modelled as `PyMat` (an ndarray of shape `rows × cols` with
rational entries), 1-D arrays as `PyVec`.  Python exceptions surface as
`Except PyError`; numpy peculiarities that the constructor path exercises
(the truth-value test on an array, broadcasting of a slice assignment) are
modelled explicitly, since the source relies on them.
-/

/-- Python exceptions the embedded code can raise.  `invalidParameterShape`
and `divisionByZeroInertia` exist so the spec's error taxonomy is statable;
the source never actually raises either. -/
inductive PyError where
  | invalidParameterShape
  | invalidInitialState
  | invalidSpinSpeed
  | singularSystemMatrix
  | divisionByZeroInertia
  | truthValueAmbiguous
  | broadcastError
  | attributeError
  deriving Repr, DecidableEq

/-- A 2-D numpy array with rational entries: `entry i j` is read only for
`i < rows`, `j < cols`. -/
structure PyMat where
  rows : ℕ
  cols : ℕ
  entry : ℕ → ℕ → ℚ

/-- `m.shape`, as the Python tuple `(rows, cols)`. -/
def PyMat.shape (m : PyMat) : ℕ × ℕ := (m.rows, m.cols)

/-- A 1-D numpy array. -/
structure PyVec where
  len : ℕ
  entry : ℕ → ℚ

/-- `np.zeros((n,))`. -/
def PyVec.zeros (n : ℕ) : PyVec := ⟨n, fun _ => 0⟩

/-- Shape equality of two 2-D arrays (`K.shape == C.shape`). -/
def shapeEqb (a b : PyMat) : Bool :=
  (a.rows == b.rows) && (a.cols == b.cols)

/-- `m.shape == (5, 5)`. -/
def shapeIs55 (m : PyMat) : Bool :=
  (m.rows == 5) && (m.cols == 5)

/-- The constructor's test `K.shape != C.shape or K.shape != M.shape != (5, 5)`.
Python chains the second comparison: it is
`K.shape != M.shape and M.shape != (5, 5)`. -/
def shapeCheckFails (K C M : PyMat) : Bool :=
  !(shapeEqb K C) || (!(shapeEqb K M) && !(shapeIs55 M))

/-- Whether numpy can broadcast `m` onto a `(5, 5)` slice
(each dimension is 5 or 1), as in `self.A[:5, :5] = self.C`. -/
def bcastOK (m : PyMat) : Bool :=
  (m.rows == 5 || m.rows == 1) && (m.cols == 5 || m.cols == 1)

/-- The value broadcast assignment writes at position `(i, j)` of the
target slice: a size-1 dimension is repeated. -/
def bcastEntry (m : PyMat) (i j : ℕ) : ℚ :=
  m.entry (if m.rows = 1 then 0 else i) (if m.cols = 1 then 0 else j)

/-- The 10×10 matrix `A` the constructor assembles:
`A = zeros((10,10)); A[:5,:5] = C; A[5:,:5] = M; A[:5,5:] = Eye`
with `Eye = diag([1]*5)`. -/
def buildA (C M : PyMat) : PyMat :=
  ⟨10, 10, fun i j =>
    if i < 5 then
      if j < 5 then bcastEntry C i j
      else if i = j - 5 then 1 else 0
    else
      if j < 5 then bcastEntry M (i - 5) j
      else 0⟩

/-- The 10×10 matrix `B` the constructor assembles:
`B = zeros((10,10)); B[:5,:5] = K; B[5:,5:] = -Eye`. -/
def buildB (K : PyMat) : PyMat :=
  ⟨10, 10, fun i j =>
    if i < 5 then
      if j < 5 then bcastEntry K i j
      else 0
    else
      if j < 5 then 0
      else if i = j then -1 else 0⟩

/-- The `flywheel` object.  The attributes `K`, `C`, `M`, `A`, `B` are
`Option`s because the constructor's failed-shape-check branch leaves them
unassigned (the `ValueError` there is built but never raised). -/
structure flywheel where
  K? : Option PyMat
  C? : Option PyMat
  M? : Option PyMat
  A? : Option PyMat
  B? : Option PyMat
  x : PyVec
  w : ℚ

/-- Reading `self.attr`: `AttributeError` when the attribute was never
assigned. -/
def attrGet {α : Type} (o : Option α) : Except PyError α :=
  match o with
  | none => .error .attributeError
  | some a => .ok a

/-- The constructor's `K`/`C`/`M` branch.  When the shape test fails the
source evaluates `ValueError(...)` without raising it and assigns nothing;
otherwise it stores the three inputs and assembles `A` and `B` (numpy
raises if an input cannot be broadcast onto a 5×5 slice). -/
def kcmBranch (K C M : PyMat) :
    Except PyError
      (Option PyMat × Option PyMat × Option PyMat × Option PyMat × Option PyMat) :=
  if shapeCheckFails K C M then
    pure (none, none, none, none, none)
  else
    if bcastOK C && bcastOK M && bcastOK K then
      pure (some K, some C, some M, some (buildA C M), some (buildB K))
    else
      throw PyError.broadcastError

/-- Python's `not x0` on an optional 1-D array: `True` for `None`; for an
array, `bool(x0)` raises on more than one element, else tests the single
element (an empty array is falsy). -/
def pyNotVec (x0 : Option PyVec) : Except PyError Bool :=
  match x0 with
  | none => pure true
  | some v =>
      if v.len = 0 then pure true
      else if v.len = 1 then pure (v.entry 0 == 0)
      else throw PyError.truthValueAmbiguous

/-- The constructor's `x0` branch:
`if not x0: x = zeros((len(K),)) elif x0.shape == (len(K),): x = x0
else: raise ValueError(...)`.  `len(K)` is `K.rows`. -/
def x0branch (K : PyMat) (x0 : Option PyVec) : Except PyError PyVec := do
  let nb ← pyNotVec x0
  if nb then
    pure (PyVec.zeros K.rows)
  else
    match x0 with
    | none => pure (PyVec.zeros K.rows)
    | some v =>
        if v.len == K.rows then pure v
        else throw PyError.invalidInitialState

/-- The constructor's `w0` branch: `if not w0: w = 0
elif isinstance(w0, float) and w0 > 0: w = w0 else: raise ValueError(...)`.
Supplied values are floats, so `not w0` holds exactly for `0.0`. -/
def w0branch (w0 : Option ℚ) : Except PyError ℚ :=
  match w0 with
  | none => pure 0
  | some v =>
      if v == 0 then pure 0
      else if v > 0 then pure v
      else throw PyError.invalidSpinSpeed

/-- `flywheel.__init__(K, C, M, x0, w0)`. -/
def flywheel.init (K C M : PyMat) (x0 : Option PyVec) (w0 : Option ℚ) :
    Except PyError flywheel := do
  let (k?, c?, m?, a?, b?) ← kcmBranch K C M
  let x ← x0branch K x0
  let w ← w0branch w0
  pure ⟨k?, c?, m?, a?, b?, x, w⟩

/-- View a stored 10×10 `PyMat` as a `Matrix (Fin 10) (Fin 10) ℚ`. -/
def PyMat.toMatrix (m : PyMat) : Matrix (Fin 10) (Fin 10) ℚ :=
  Matrix.of fun i j => m.entry i.val j.val

/-- `np.linalg.inv` on a 10×10 array: raises `LinAlgError` on a singular
matrix, else returns the inverse `det⁻¹ • adjugate`. -/
def npLinalgInv (A : Matrix (Fin 10) (Fin 10) ℚ) :
    Except PyError (Matrix (Fin 10) (Fin 10) ℚ) :=
  if A.det = 0 then .error .singularSystemMatrix
  else .ok (A.det⁻¹ • A.adjugate)

/-- `flywheel.lode(t, x)`: `dx = -inv(self.A).dot(self.B.dot(x))`.
The time argument is unused by the source. -/
def flywheel.lode (self : flywheel) (t : ℚ) (x : Fin 10 → ℚ) :
    Except PyError (Fin 10 → ℚ) := do
  let A ← attrGet self.A?
  let Ainv ← npLinalgInv A.toMatrix
  let B ← attrGet self.B?
  pure (-(Ainv.mulVec (B.toMatrix.mulVec x)))

/-- The derivative array `dx` that `nlode` fills in, as a function of the
index: `dx[0..4] = x[5..9]` and the five per-axis acceleration lines of
the source. -/
def nlodeVec (Kp Cp Mp : PyMat) (w : ℚ) (x : Fin 10 → ℚ) (f : Fin 5 → ℚ) :
    Fin 10 → ℚ := fun i =>
  if i.val = 0 then x 5
  else if i.val = 1 then x 6
  else if i.val = 2 then x 7
  else if i.val = 3 then x 8
  else if i.val = 4 then x 9
  else if i.val = 5 then
    1 / Mp.entry 0 0 * (f 0 - Cp.entry 1 0 * w * x 6 - Kp.entry 0 0 * x 0)
  else if i.val = 6 then
    1 / Mp.entry 1 1 * (f 1 - Cp.entry 0 1 * w * x 5 - Kp.entry 1 1 * x 1)
  else if i.val = 7 then 1 / Mp.entry 2 2 * (f 2 - Kp.entry 2 2 * x 2)
  else if i.val = 8 then 1 / Mp.entry 3 3 * (f 3 - Kp.entry 3 3 * x 3)
  else 1 / Mp.entry 4 4 * (f 4 - Kp.entry 4 4 * x 4)

/-- `flywheel.nlode(t, x, f)`: positions copy the velocities,
accelerations follow the per-axis formulas of the source (the time
argument is unused). -/
def flywheel.nlode (self : flywheel) (t : ℚ) (x : Fin 10 → ℚ) (f : Fin 5 → ℚ) :
    Except PyError (Fin 10 → ℚ) := do
  let M ← attrGet self.M?
  let C ← attrGet self.C?
  let K ← attrGet self.K?
  pure (nlodeVec K C M self.w x f)

/-- The object a successful, fully-validating construction with omitted
`x0`, `w0` yields. -/
def mkValid (K C M : PyMat) : flywheel :=
  ⟨some K, some C, some M, some (buildA C M), some (buildB K),
   PyVec.zeros K.rows, 0⟩

/-- The object the failed-shape-check branch yields (with omitted `x0`,
`w0`): no matrix attribute is ever assigned. -/
def mkFailed (K : PyMat) : flywheel :=
  ⟨none, none, none, none, none, PyVec.zeros K.rows, 0⟩

/-- Concrete 5×5 zero stiffness matrix. -/
def K0 : PyMat := ⟨5, 5, fun _ _ => 0⟩

/-- Concrete 5×5 zero damping matrix. -/
def C0 : PyMat := ⟨5, 5, fun _ _ => 0⟩

/-- Concrete 5×5 identity inertia matrix. -/
def M0 : PyMat := ⟨5, 5, fun i j => if i = j then 1 else 0⟩

/-- Concrete 5×5 all-zero inertia matrix (zero diagonal). -/
def Mz : PyMat := ⟨5, 5, fun _ _ => 0⟩

/-- Concrete 4×4 zero matrix (wrong shape). -/
def K44 : PyMat := ⟨4, 4, fun _ _ => 0⟩

/-- A supplied 5-element initial state. -/
def x0five : PyVec := ⟨5, fun _ => 1⟩

/-- The model built from `K0`, `C0`, `M0` with everything omitted. -/
def fw0 : flywheel := mkValid K0 C0 M0

/-- A model identical to `fw0` except for spin speed `w = 2`. -/
def fwW : flywheel :=
  ⟨some K0, some C0, some M0, some (buildA C0 M0), some (buildB K0),
   PyVec.zeros 5, 2⟩

/-- The model built from `K0`, `C0` and the zero inertia matrix `Mz`. -/
def fwDz : flywheel := mkValid K0 C0 Mz


/-- The index equivalence identifying `Fin 10` with two blocks of five. -/
def swapEquiv : Fin 5 ⊕ Fin 5 ≃ Fin 10 := finSumFinEquiv

theorem A0_eq : (buildA C0 M0).toMatrix =
    (Matrix.fromBlocks (0 : Matrix (Fin 5) (Fin 5) ℚ) 1 1 0).submatrix
      swapEquiv.symm swapEquiv.symm := by
  ext i j
  fin_cases i <;> fin_cases j <;> rfl

theorem A0_mul_A0 : (buildA C0 M0).toMatrix * (buildA C0 M0).toMatrix = 1 := by
  rw [A0_eq, Matrix.submatrix_mul_equiv, Matrix.fromBlocks_multiply]
  simp

theorem A0_det_isUnit : IsUnit ((buildA C0 M0).toMatrix).det :=
  Matrix.isUnit_det_of_right_inverse A0_mul_A0

theorem lode_eval {fw : flywheel} {Ap Bp : PyMat} (hA : fw.A? = some Ap)
    (hB : fw.B? = some Bp) (hne : Ap.toMatrix.det ≠ 0) (t : ℚ) (x : Fin 10 → ℚ) :
    fw.lode t x =
      .ok (-((Ap.toMatrix.det⁻¹ • Ap.toMatrix.adjugate).mulVec (Bp.toMatrix.mulVec x))) := by
  unfold flywheel.lode
  rw [hA, hB]
  simp [attrGet, npLinalgInv, hne, Bind.bind, Except.bind, Pure.pure, Except.pure]

theorem lode_fw0_zero : fw0.lode 0 0 = .ok 0 := by
  rw [lode_eval rfl rfl A0_det_isUnit.ne_zero]
  simp [Matrix.mulVec_zero]

/-- C4: the claim says construction with K of shape (4,4) and C, M of shape
(5,5) fails with InvalidParameterShape.  In the source the `ValueError` is
constructed but never raised: construction completes, returning an object
with no matrix attributes assigned.  This theorem evaluates the code at the
failing input. -/
theorem C4_shape_mismatch_completes :
    K44.shape = (4, 4) ∧ C0.shape = (5, 5) ∧ M0.shape = (5, 5) ∧
      flywheel.init K44 C0 M0 none none = .ok (mkFailed K44) ∧
      flywheel.init K44 C0 M0 none none ≠ .error PyError.invalidParameterShape :=
  ⟨rfl, rfl, rfl, rfl, fun h => Except.noConfusion h⟩

/-- C8: the claim says a supplied x0 whose length matches the state
dimension is stored and construction succeeds.  In the source, `not x0` on
a multi-element numpy array raises the truth-value-ambiguity ValueError, so
construction fails even for a matching-length x0.  This theorem evaluates
the code at the failing input. -/
theorem C8_supplied_x0_raises_ambiguity :
    x0five.len = K0.rows ∧
      flywheel.init K0 C0 M0 (some x0five) none
        = .error PyError.truthValueAmbiguous ∧
      flywheel.init K0 C0 M0 (some x0five) none
        ≠ .error PyError.invalidInitialState :=
  ⟨rfl, rfl, fun h => PyError.noConfusion (Except.error.inj h)⟩

/-- C9: the claim says a supplied w0 that is not a positive real fails with
InvalidSpinSpeed.  In the source, `not w0` holds for the supplied value
0.0, which is silently treated as omitted: construction succeeds with
w = 0.  This theorem evaluates the code at the failing input. -/
theorem C9_zero_w0_silently_accepted :
    flywheel.init K0 C0 M0 none (some 0) = .ok fw0 ∧ fw0.w = 0 ∧
      flywheel.init K0 C0 M0 none (some 0) ≠ .error PyError.invalidSpinSpeed :=
  ⟨rfl, rfl, fun h => Except.noConfusion h⟩

/-- C7 counterexample: with the all-zero inertia matrix `Mz` (zero used
diagonal entries), the nonlinear derivative call does not fail — it
returns a result — refuting that it fails with DivisionByZeroInertia. -/
theorem C7_counterexample :
    Mz.entry 0 0 = 0 ∧ flywheel.init K0 C0 Mz none none = .ok fwDz ∧
      (fwDz.nlode 0 (fun _ => 0) (fun _ => 0)).toBool = true ∧
      fwDz.nlode 0 (fun _ => 0) (fun _ => 0)
        ≠ .error PyError.divisionByZeroInertia :=
  ⟨rfl, rfl, rfl, fun h => Except.noConfusion h⟩

/-- C7 amended: if a used diagonal entry of M is zero, the call to the
nonlinear derivative does not fail for that call: once K, C, M are
assigned, `nlode` always returns a vector (numpy float division by zero
yields inf/nan values, not an exception). -/
theorem C7_nlode_never_raises (fw : flywheel) (Kp Cp Mp : PyMat)
    (hK : fw.K? = some Kp) (hC : fw.C? = some Cp) (hM : fw.M? = some Mp)
    (hzero : Mp.entry 0 0 = 0 ∨ Mp.entry 1 1 = 0 ∨ Mp.entry 2 2 = 0
      ∨ Mp.entry 3 3 = 0 ∨ Mp.entry 4 4 = 0)
    (t : ℚ) (x : Fin 10 → ℚ) (f : Fin 5 → ℚ) :
    (fw.nlode t x f).toBool = true := by
  unfold flywheel.nlode
  rw [hM, hC, hK]
  rfl

theorem C7_nlode_never_raises_witness :
    fwDz.K? = some K0 ∧ fwDz.C? = some C0 ∧ fwDz.M? = some Mz ∧
      Mz.entry 0 0 = 0 ∧
      (fwDz.nlode 1 (fun _ => 1) (fun _ => 1)).toBool = true :=
  ⟨rfl, rfl, rfl, rfl,
    C7_nlode_never_raises fwDz K0 C0 Mz rfl rfl rfl (Or.inl rfl) 1
      (fun _ => 1) (fun _ => 1)⟩

/-- C10: when the constructor's shape check triggers, construction still
completes (with default x0, w0) and the returned object has none of K, C,
M, A, B assigned, so lode and nlode fail with an attribute-access error. -/
theorem C10_silent_shape_failure (K C M : PyMat) (x0 : Option PyVec)
    (w0 : Option ℚ) (fw : flywheel) (t : ℚ) (x : Fin 10 → ℚ) (f : Fin 5 → ℚ)
    (hsc : shapeCheckFails K C M = true)
    (hok : flywheel.init K C M x0 w0 = .ok fw) :
    fw.K? = none ∧ fw.C? = none ∧ fw.M? = none ∧ fw.A? = none ∧ fw.B? = none
      ∧ fw.lode t x = .error PyError.attributeError
      ∧ fw.nlode t x f = .error PyError.attributeError
      ∧ flywheel.init K C M none none = .ok (mkFailed K) := by
  unfold flywheel.init kcmBranch at hok
  rw [hsc] at hok
  simp only [if_true, Bind.bind, Except.bind, Pure.pure, Except.pure] at hok
  rcases hx : x0branch K x0 with e | xv <;> rw [hx] at hok
  · exact absurd hok (fun h => Except.noConfusion h)
  rcases hw : w0branch w0 with e | wv <;> rw [hw] at hok
  · exact absurd hok (fun h => Except.noConfusion h)
  have hfw : fw = ⟨none, none, none, none, none, xv, wv⟩ :=
    (Except.ok.inj hok).symm
  subst hfw
  refine ⟨rfl, rfl, rfl, rfl, rfl, rfl, rfl, ?_⟩
  unfold flywheel.init kcmBranch
  rw [hsc]
  rfl

theorem C10_witness :
    shapeCheckFails K44 C0 M0 = true ∧
      ((mkFailed K44).K? = none ∧ (mkFailed K44).C? = none ∧
       (mkFailed K44).M? = none ∧ (mkFailed K44).A? = none ∧
       (mkFailed K44).B? = none ∧
       (mkFailed K44).lode 0 (fun _ => 0) = .error PyError.attributeError ∧
       (mkFailed K44).nlode 0 (fun _ => 0) (fun _ => 0)
         = .error PyError.attributeError ∧
       flywheel.init K44 C0 M0 none none = .ok (mkFailed K44)) :=
  ⟨rfl, C10_silent_shape_failure K44 C0 M0 none none (mkFailed K44) 0
    (fun _ => 0) (fun _ => 0) rfl rfl⟩

theorem nlode_eval {fw : flywheel} {Kp Cp Mp : PyMat} (hK : fw.K? = some Kp)
    (hC : fw.C? = some Cp) (hM : fw.M? = some Mp)
    (t : ℚ) (x : Fin 10 → ℚ) (f : Fin 5 → ℚ) :
    fw.nlode t x f = .ok (nlodeVec Kp Cp Mp fw.w x f) := by
  unfold flywheel.nlode
  rw [hM, hC, hK]
  rfl

theorem nlodeVec_agree (Kp Cp Mp : PyMat) (w1 w2 : ℚ) (x : Fin 10 → ℚ)
    (f : Fin 5 → ℚ) (i : Fin 10) (hi5 : i ≠ 5) (hi6 : i ≠ 6) :
    nlodeVec Kp Cp Mp w1 x f i = nlodeVec Kp Cp Mp w2 x f i := by
  have h5 : ¬i.val = 5 := fun h => hi5 (Fin.ext h)
  have h6 : ¬i.val = 6 := fun h => hi6 (Fin.ext h)
  unfold nlodeVec
  simp only [h5, h6, if_false]

/-- C1: for valid 5×5 K, C, M, construction succeeds and the assembled
10×10 A has top-left block C, bottom-left block M, top-right block the
identity, bottom-right block zero; B has top-left block K, bottom-right
block minus the identity, and zero elsewhere. -/
theorem C1_construction_blocks (K C M : PyMat) (i j : ℕ)
    (hK : K.shape = (5, 5)) (hC : C.shape = (5, 5)) (hM : M.shape = (5, 5))
    (hi : i < 5) (hj : j < 5) :
    flywheel.init K C M none none = .ok (mkValid K C M)
      ∧ (mkValid K C M).A? = some (buildA C M)
      ∧ (mkValid K C M).B? = some (buildB K)
      ∧ (buildA C M).entry i j = C.entry i j
      ∧ (buildA C M).entry (i + 5) j = M.entry i j
      ∧ (buildA C M).entry i (j + 5) = (if i = j then (1 : ℚ) else 0)
      ∧ (buildA C M).entry (i + 5) (j + 5) = 0
      ∧ (buildB K).entry i j = K.entry i j
      ∧ (buildB K).entry i (j + 5) = 0
      ∧ (buildB K).entry (i + 5) j = 0
      ∧ (buildB K).entry (i + 5) (j + 5) = (if i = j then (-1 : ℚ) else 0) := by
  have hKr : K.rows = 5 := congrArg Prod.fst hK
  have hKc : K.cols = 5 := congrArg Prod.snd hK
  have hCr : C.rows = 5 := congrArg Prod.fst hC
  have hCc : C.cols = 5 := congrArg Prod.snd hC
  have hMr : M.rows = 5 := congrArg Prod.fst hM
  have hMc : M.cols = 5 := congrArg Prod.snd hM
  have h5i : ¬(i + 5 < 5) := by omega
  have h5j : ¬(j + 5 < 5) := by omega
  refine ⟨?_, rfl, rfl, ?_, ?_, ?_, ?_, ?_, ?_, ?_, ?_⟩
  · simp [flywheel.init, kcmBranch, shapeCheckFails, shapeEqb, shapeIs55,
      bcastOK, hKr, hKc, hCr, hCc, hMr, hMc, x0branch, pyNotVec, w0branch,
      mkValid, Bind.bind, Except.bind, Pure.pure, Except.pure]
  · simp [buildA, bcastEntry, hi, hj, hCr, hCc]
  · simp [buildA, bcastEntry, h5i, hj, hMr, hMc]
  · simp [buildA, hi, h5j, Nat.add_sub_cancel]
  · simp [buildA, h5i, h5j]
  · simp [buildB, bcastEntry, hi, hj, hKr, hKc]
  · simp [buildB, hi, h5j]
  · simp [buildB, h5i, hj]
  · simp [buildB, h5i, h5j, Nat.add_right_cancel_iff]

theorem C1_construction_blocks_witness :
    K0.shape = (5, 5) ∧ C0.shape = (5, 5) ∧ M0.shape = (5, 5) ∧ (0 : ℕ) < 5 ∧
      (flywheel.init K0 C0 M0 none none = .ok (mkValid K0 C0 M0)
        ∧ (mkValid K0 C0 M0).A? = some (buildA C0 M0)
        ∧ (mkValid K0 C0 M0).B? = some (buildB K0)
        ∧ (buildA C0 M0).entry 0 0 = C0.entry 0 0
        ∧ (buildA C0 M0).entry 5 0 = M0.entry 0 0
        ∧ (buildA C0 M0).entry 0 5 = (if (0 : ℕ) = 0 then (1 : ℚ) else 0)
        ∧ (buildA C0 M0).entry 5 5 = 0
        ∧ (buildB K0).entry 0 0 = K0.entry 0 0
        ∧ (buildB K0).entry 0 5 = 0
        ∧ (buildB K0).entry 5 0 = 0
        ∧ (buildB K0).entry 5 5 = (if (0 : ℕ) = 0 then (-1 : ℚ) else 0)) :=
  ⟨rfl, rfl, rfl, by decide,
    C1_construction_blocks K0 C0 M0 0 0 rfl rfl rfl (by decide) (by decide)⟩

/-- C2: for any model whose K, C, M attributes are assigned and whose used
inertia diagonal entries are nonzero, nlode succeeds; its result copies
x[5..9] into dx[0..4] and computes the five claimed acceleration
formulas. -/
theorem C2_nlode_formula (fw : flywheel) (Kp Cp Mp : PyMat)
    (hK : fw.K? = some Kp) (hC : fw.C? = some Cp) (hM : fw.M? = some Mp)
    (h0 : Mp.entry 0 0 ≠ 0) (h1 : Mp.entry 1 1 ≠ 0) (h2 : Mp.entry 2 2 ≠ 0)
    (h3 : Mp.entry 3 3 ≠ 0) (h4 : Mp.entry 4 4 ≠ 0)
    (t : ℚ) (x : Fin 10 → ℚ) (f : Fin 5 → ℚ) :
    fw.nlode t x f = .ok (nlodeVec Kp Cp Mp fw.w x f)
      ∧ nlodeVec Kp Cp Mp fw.w x f 0 = x 5
      ∧ nlodeVec Kp Cp Mp fw.w x f 1 = x 6
      ∧ nlodeVec Kp Cp Mp fw.w x f 2 = x 7
      ∧ nlodeVec Kp Cp Mp fw.w x f 3 = x 8
      ∧ nlodeVec Kp Cp Mp fw.w x f 4 = x 9
      ∧ nlodeVec Kp Cp Mp fw.w x f 5
          = (f 0 - Cp.entry 1 0 * fw.w * x 6 - Kp.entry 0 0 * x 0) / Mp.entry 0 0
      ∧ nlodeVec Kp Cp Mp fw.w x f 6
          = (f 1 - Cp.entry 0 1 * fw.w * x 5 - Kp.entry 1 1 * x 1) / Mp.entry 1 1
      ∧ nlodeVec Kp Cp Mp fw.w x f 7 = (f 2 - Kp.entry 2 2 * x 2) / Mp.entry 2 2
      ∧ nlodeVec Kp Cp Mp fw.w x f 8 = (f 3 - Kp.entry 3 3 * x 3) / Mp.entry 3 3
      ∧ nlodeVec Kp Cp Mp fw.w x f 9
          = (f 4 - Kp.entry 4 4 * x 4) / Mp.entry 4 4 :=
  ⟨nlode_eval hK hC hM t x f, rfl, rfl, rfl, rfl, rfl,
    one_div_mul_eq_div _ _, one_div_mul_eq_div _ _, one_div_mul_eq_div _ _,
    one_div_mul_eq_div _ _, one_div_mul_eq_div _ _⟩

theorem C2_nlode_formula_witness :
    fwW.K? = some K0 ∧ fwW.C? = some C0 ∧ fwW.M? = some M0 ∧
      M0.entry 0 0 ≠ 0 ∧ M0.entry 1 1 ≠ 0 ∧ M0.entry 2 2 ≠ 0 ∧
      M0.entry 3 3 ≠ 0 ∧ M0.entry 4 4 ≠ 0 ∧
      (fwW.nlode 0 (fun _ => 1) (fun _ => 0)
          = .ok (nlodeVec K0 C0 M0 fwW.w (fun _ => 1) (fun _ => 0))
        ∧ nlodeVec K0 C0 M0 fwW.w (fun _ => 1) (fun _ => 0) 0 = 1
        ∧ nlodeVec K0 C0 M0 fwW.w (fun _ => 1) (fun _ => 0) 1 = 1
        ∧ nlodeVec K0 C0 M0 fwW.w (fun _ => 1) (fun _ => 0) 2 = 1
        ∧ nlodeVec K0 C0 M0 fwW.w (fun _ => 1) (fun _ => 0) 3 = 1
        ∧ nlodeVec K0 C0 M0 fwW.w (fun _ => 1) (fun _ => 0) 4 = 1
        ∧ nlodeVec K0 C0 M0 fwW.w (fun _ => 1) (fun _ => 0) 5
            = (0 - C0.entry 1 0 * fwW.w * 1 - K0.entry 0 0 * 1) / M0.entry 0 0
        ∧ nlodeVec K0 C0 M0 fwW.w (fun _ => 1) (fun _ => 0) 6
            = (0 - C0.entry 0 1 * fwW.w * 1 - K0.entry 1 1 * 1) / M0.entry 1 1
        ∧ nlodeVec K0 C0 M0 fwW.w (fun _ => 1) (fun _ => 0) 7
            = (0 - K0.entry 2 2 * 1) / M0.entry 2 2
        ∧ nlodeVec K0 C0 M0 fwW.w (fun _ => 1) (fun _ => 0) 8
            = (0 - K0.entry 3 3 * 1) / M0.entry 3 3
        ∧ nlodeVec K0 C0 M0 fwW.w (fun _ => 1) (fun _ => 0) 9
            = (0 - K0.entry 4 4 * 1) / M0.entry 4 4) :=
  ⟨rfl, rfl, rfl, by simp [M0], by simp [M0], by simp [M0], by simp [M0],
    by simp [M0],
    C2_nlode_formula fwW K0 C0 M0 rfl rfl rfl (by simp [M0]) (by simp [M0])
      (by simp [M0]) (by simp [M0]) (by simp [M0]) 0 (fun _ => 1) (fun _ => 0)⟩

/-- C6: two models sharing K, C, M (but possibly differing in spin speed)
produce nlode outputs that agree at every index other than 5 and 6: the
spin speed influences only the two rotational-axis accelerations. -/
theorem C6_spin_speed_isolation (fw1 fw2 : flywheel) (Kp Cp Mp : PyMat)
    (h1K : fw1.K? = some Kp) (h2K : fw2.K? = some Kp)
    (h1C : fw1.C? = some Cp) (h2C : fw2.C? = some Cp)
    (h1M : fw1.M? = some Mp) (h2M : fw2.M? = some Mp)
    (i : Fin 10) (hi5 : i ≠ 5) (hi6 : i ≠ 6)
    (t : ℚ) (x : Fin 10 → ℚ) (f : Fin 5 → ℚ) :
    (fw1.nlode t x f).toBool = true ∧ (fw2.nlode t x f).toBool = true ∧
      (fw1.nlode t x f).map (fun d => d i)
        = (fw2.nlode t x f).map (fun d => d i) := by
  rw [nlode_eval h1K h1C h1M, nlode_eval h2K h2C h2M]
  exact ⟨rfl, rfl,
    congrArg Except.ok (nlodeVec_agree Kp Cp Mp fw1.w fw2.w x f i hi5 hi6)⟩

theorem C6_spin_speed_isolation_witness :
    fw0.K? = some K0 ∧ fwW.K? = some K0 ∧ fw0.C? = some C0 ∧
      fwW.C? = some C0 ∧ fw0.M? = some M0 ∧ fwW.M? = some M0 ∧
      fw0.w = 0 ∧ fwW.w = 2 ∧ (0 : Fin 10) ≠ 5 ∧ (0 : Fin 10) ≠ 6 ∧
      ((fw0.nlode 0 (fun _ => 1) (fun _ => 1)).toBool = true ∧
       (fwW.nlode 0 (fun _ => 1) (fun _ => 1)).toBool = true ∧
       (fw0.nlode 0 (fun _ => 1) (fun _ => 1)).map (fun d => d 0)
         = (fwW.nlode 0 (fun _ => 1) (fun _ => 1)).map (fun d => d 0)) :=
  ⟨rfl, rfl, rfl, rfl, rfl, rfl, rfl, rfl, by decide, by decide,
    C6_spin_speed_isolation fw0 fwW K0 C0 M0 rfl rfl rfl rfl rfl rfl 0
      (by decide) (by decide) 0 (fun _ => 1) (fun _ => 1)⟩

/-- C3: for a successfully constructed model whose A is invertible, lode
returns the vector minus A-inverse times (B times x), and the time
argument has no effect on the result. -/
theorem C3_lode_formula (K C M : PyMat) (fw : flywheel) (Ap Bp : PyMat)
    (hfw : flywheel.init K C M none none = .ok fw)
    (hA : fw.A? = some Ap) (hB : fw.B? = some Bp)
    (hdet : IsUnit Ap.toMatrix.det) (t t' : ℚ) (x : Fin 10 → ℚ) :
    fw.lode t x = .ok (-(Ap.toMatrix⁻¹.mulVec (Bp.toMatrix.mulVec x)))
      ∧ fw.lode t x = fw.lode t' x := by
  have hne : Ap.toMatrix.det ≠ 0 := hdet.ne_zero
  refine ⟨?_, rfl⟩
  rw [lode_eval hA hB hne, Matrix.inv_def, Ring.inverse_eq_inv]

theorem C3_lode_formula_witness :
    flywheel.init K0 C0 M0 none none = .ok fw0 ∧
      fw0.A? = some (buildA C0 M0) ∧ fw0.B? = some (buildB K0) ∧
      IsUnit ((buildA C0 M0).toMatrix).det ∧
      (fw0.lode 0 0
          = .ok (-(((buildA C0 M0).toMatrix)⁻¹.mulVec
              ((buildB K0).toMatrix.mulVec 0)))
        ∧ fw0.lode 0 0 = fw0.lode 1 0) :=
  ⟨rfl, rfl, rfl, A0_det_isUnit,
    C3_lode_formula K0 C0 M0 fw0 (buildA C0 M0) (buildB K0) rfl rfl rfl
      A0_det_isUnit 0 1 0⟩

/-- C5: the linear derivative is linear in the state: for a successfully
constructed model with invertible A, lode of an arbitrary linear
combination is the same linear combination of the lode results. -/
theorem C5_lode_linear (K C M : PyMat) (fw : flywheel) (Ap Bp : PyMat)
    (hfw : flywheel.init K C M none none = .ok fw)
    (hA : fw.A? = some Ap) (hB : fw.B? = some Bp)
    (hdet : IsUnit Ap.toMatrix.det) (a b t : ℚ) (x1 x2 d1 d2 : Fin 10 → ℚ)
    (h1 : fw.lode t x1 = .ok d1) (h2 : fw.lode t x2 = .ok d2) :
    fw.lode t (a • x1 + b • x2) = .ok (a • d1 + b • d2) := by
  have hne : Ap.toMatrix.det ≠ 0 := hdet.ne_zero
  rw [lode_eval hA hB hne] at h1 h2
  rw [lode_eval hA hB hne]
  have e1 := Except.ok.inj h1
  have e2 := Except.ok.inj h2
  subst e1
  subst e2
  congr 1
  simp [Matrix.mulVec_add, Matrix.mulVec_smul, smul_neg, neg_add]
  exact add_comm _ _

theorem C5_lode_linear_witness :
    flywheel.init K0 C0 M0 none none = .ok fw0 ∧
      fw0.A? = some (buildA C0 M0) ∧ fw0.B? = some (buildB K0) ∧
      IsUnit ((buildA C0 M0).toMatrix).det ∧
      fw0.lode 0 0 = .ok 0 ∧
      fw0.lode 0 ((2 : ℚ) • (0 : Fin 10 → ℚ) + (3 : ℚ) • (0 : Fin 10 → ℚ))
        = .ok ((2 : ℚ) • (0 : Fin 10 → ℚ) + (3 : ℚ) • (0 : Fin 10 → ℚ)) :=
  ⟨rfl, rfl, rfl, A0_det_isUnit, lode_fw0_zero,
    C5_lode_linear K0 C0 M0 fw0 (buildA C0 M0) (buildB K0) rfl rfl rfl
      A0_det_isUnit 2 3 0 0 0 0 0 lode_fw0_zero lode_fw0_zero⟩
